import Mathlib

/-!
Shallow embedding of `src/services/assist.ts` from the
wake-word-capture-service repository: a request dispatcher with three
handlers (upload, list, download) over an object-storage bucket.

JavaScript runtime primitives used by the source (`parseInt`,
`Array.prototype.join`, `String.prototype.replace` with a string
pattern, `JSON.stringify(v, null, 2)`) are embedded first; handler
nondeterminism (`Date.now()`, `Math.random()`) is made explicit as
extra arguments; the storage backend is a record of fallible
operations; thrown backend errors are `Except.error`.
-/

namespace Assist

/-- JavaScript `parseInt(s, 10)`: skip leading whitespace, optional
sign, then the longest prefix of decimal digits; `none` models `NaN`
(no digits found). Trailing garbage is ignored, as in JS. -/
def jsParseInt (s : String) : Option Int :=
  let cs := s.data.dropWhile (fun c => c.isWhitespace)
  let signAndRest : Int × List Char :=
    match cs with
    | '-' :: rest => (-1, rest)
    | '+' :: rest => (1, rest)
    | _ => (1, cs)
  let ds := signAndRest.2.takeWhile (fun c => c.isDigit)
  if ds.isEmpty then none
  else some (signAndRest.1 * (ds.foldl (fun a c => a * 10 + (c.toNat - 48)) 0 : Nat))

/-- JavaScript `Array.prototype.join(sep)` on an array of strings. -/
def jsJoin (sep : String) : List String → String
  | [] => ""
  | [a] => a
  | a :: b :: rest => a ++ sep ++ jsJoin sep (b :: rest)

/-- JavaScript `String.prototype.replace(pat, repl)` with a string
pattern: replace the first occurrence of `pat` only, on char lists. -/
def jsReplaceFirstList (s pat repl : List Char) : List Char :=
  match s with
  | [] => if pat.isEmpty then repl else []
  | c :: rest =>
    if pat.isPrefixOf (c :: rest) then
      repl ++ (c :: rest).drop pat.length
    else
      c :: jsReplaceFirstList rest pat repl

/-- JavaScript `s.replace(pat, repl)` (string pattern, first occurrence). -/
def jsReplaceFirst (s pat repl : String) : String :=
  ⟨jsReplaceFirstList s.data pat.data repl.data⟩

/-- JSON values, as produced by the handlers (the `content` argument of
`createResponse` and the list-handler envelope). -/
inductive Json where
  | str (s : String)
  | num (n : Int)
  | bool (b : Bool)
  | null
  | arr (xs : List Json)
  | obj (fields : List (String × Json))

/-- Escape one character for a JSON string literal. -/
def jsonEscapeChar (c : Char) : String :=
  if c = '"' then "\\\""
  else if c = '\\' then "\\\\"
  else if c = '\n' then "\\n"
  else if c = '\t' then "\\t"
  else if c = '\r' then "\\r"
  else String.singleton c

/-- JSON string literal with quotes, as `JSON.stringify` renders strings. -/
def jsonQuote (s : String) : String :=
  "\"" ++ String.join (s.data.map jsonEscapeChar) ++ "\""

mutual

/-- Render a JSON value at indentation depth `i` (in units of the
2-space indent), as `JSON.stringify(v, null, 2)` does. -/
def renderJson (i : Nat) : Json → String
  | .str s => jsonQuote s
  | .num n => toString n
  | .bool b => if b then "true" else "false"
  | .null => "null"
  | .arr [] => "[]"
  | .arr (x :: xs) =>
    "[\n" ++ renderArrItems (i + 1) (x :: xs) ++ "\n"
      ++ String.join (List.replicate i "  ") ++ "]"
  | .obj [] => "\x7b\x7d"
  | .obj (f :: fs) =>
    "\x7b\n" ++ renderObjFields (i + 1) (f :: fs) ++ "\n"
      ++ String.join (List.replicate i "  ") ++ "\x7d"

/-- Render array items, comma-and-newline separated, each indented. -/
def renderArrItems (i : Nat) : List Json → String
  | [] => ""
  | [x] => String.join (List.replicate i "  ") ++ renderJson i x
  | x :: y :: rest =>
    String.join (List.replicate i "  ") ++ renderJson i x ++ ",\n"
      ++ renderArrItems i (y :: rest)

/-- Render object fields, comma-and-newline separated, each indented. -/
def renderObjFields (i : Nat) : List (String × Json) → String
  | [] => ""
  | [(k, v)] =>
    String.join (List.replicate i "  ") ++ jsonQuote k ++ ": " ++ renderJson i v
  | (k, v) :: f :: rest =>
    String.join (List.replicate i "  ") ++ jsonQuote k ++ ": " ++ renderJson i v
      ++ ",\n" ++ renderObjFields i (f :: rest)

end

/-- `JSON.stringify(v, null, 2)`. -/
def jsonStringify (v : Json) : String := renderJson 0 v

/-! ## Constants of `assist.ts` -/

/-- The three routes of the `TRIGGER_PATH` enum. -/
def WAKE_WORD_TRAINING_UPLOAD : String := "/assist/wake_word/training_data/upload"

/-- `TRIGGER_PATH.WAKE_WORD_TRAINING_LIST`. -/
def WAKE_WORD_TRAINING_LIST : String := "/assist/wake_word/training_data/list"

/-- `TRIGGER_PATH.WAKE_WORD_TRAINING_DOWNLOAD`. -/
def WAKE_WORD_TRAINING_DOWNLOAD : String := "/assist/wake_word/training_data/download"

/-- `WAKE_WORD_ALLOWED_CONTENT_TYPES`. -/
def WAKE_WORD_ALLOWED_CONTENT_TYPES : List String :=
  ["audio/webm", "audio/ogg", "audio/mp4", "audio/wav"]

/-- `WAKE_WORD_ALLOWED_NAMES`. -/
def WAKE_WORD_ALLOWED_NAMES : List String := ["hey_nexus"]

/-- `NEGATIVE_WAKE_WORD_ALLOWED_NAMES`. -/
def NEGATIVE_WAKE_WORD_ALLOWED_NAMES : List String :=
  ["hey_lexus", "hey_texas", "texas"]

/-- `WAKE_WORD_MAX_CONTENT_LENGTH = 250 * 1024`. -/
def WAKE_WORD_MAX_CONTENT_LENGTH : Int := 250 * 1024

/-! ## Reference tables

`AGES`, `GENDERS` and `LEGACY_ACCENTS` are imported from
`../data/demographics`, a module of this repository that is not under
`src/`; only JS key-membership tests (`x in TABLE`) and
`Object.keys(...)` are applied to them, so each table is embedded as
its list of keys, kept abstract in a structure. -/

/-- Modelled from the spec: the demographics module
(`src/data/demographics`, absent from the sources) supplies AGES (a map
of age-code to label that includes `""` as a valid default key), GENDERS
(a map that includes `"do_not_wish_to_say"`), and LEGACY_ACCENTS (a map
of language to a map of accent-code to label). The handlers use only
key membership, so a table is its key list. -/
structure Demographics where
  AGES : List String
  GENDERS : List String
  LEGACY_ACCENTS : List (String × List String)

/-- Modelled from the spec: a concrete instance of the demographics
tables satisfying the spec invariants (`""` is a valid AGES key, §8
names `"child"` as a valid age code, GENDERS contains
`"do_not_wish_to_say"`), used to instantiate witnesses. -/
def specDemographics : Demographics where
  AGES := ["", "child", "adult", "senior"]
  GENDERS := ["male", "female", "do_not_wish_to_say"]
  LEGACY_ACCENTS := [("en", ["us", "gb"]), ("de", ["de"])]

/-- Accent keys for a language: `Object.keys(LEGACY_ACCENTS[language])`
(empty when the language is not a key). -/
def Demographics.accentsFor (d : Demographics) (language : String) : List String :=
  match d.LEGACY_ACCENTS.find? (fun p => p.1 == language) with
  | some p => p.2
  | none => []

/-! ## Requests, responses, bucket -/

/-- The parts of the incoming request the handlers read: the method,
`requestUrl.pathname`, the three headers fetched with `headers.get`
(absent header = `none`), the query parameters fetched with
`searchParams.get` (absent parameter = `none`), and the body. -/
structure Request where
  method : String
  pathname : String
  contentTypeHeader : Option String
  contentLengthHeader : Option String
  cfRay : Option String
  wake_word : Option String
  age : Option String
  gender : Option String
  language : Option String
  accent : Option String
  limit : Option String
  prefixParam : Option String
  cursor : Option String
  key : Option String
  body : String
deriving DecidableEq

/-- An HTTP response: status, header list in insertion order, body. -/
structure Response where
  status : Nat
  headers : List (String × String)
  body : String
deriving DecidableEq

/-- A summary of a stored object as the list call returns it
(`uploaded.toISOString()` is modelled as the ISO string itself, and
`httpMetadata` is carried opaquely as the JSON it serializes to). -/
structure R2Object where
  key : String
  size : Nat
  uploadedISO : String
  httpMetadata : Json

/-- The stored object the download's `get` returns:
`httpMetadata?.contentType`, the byte size, and the streamed body. -/
structure StoredObject where
  contentType : Option String
  size : Nat
  body : String

/-- Options passed to the bucket's `list` call; `limit` is `none` when
the JS value is `NaN`. -/
structure ListOptions where
  limit : Option Int
  prefixStr : String
  cursor : Option String
deriving DecidableEq

/-- The bucket's `list` result. -/
structure Listed where
  objects : List R2Object
  truncated : Bool
  cursor : Option String
  delimitedPrefixes : List String

/-- The storage backend (`event.env.WAKEWORD_TRAINING_BUCKET`): each
operation either throws (`Except.error`, the thrown error stringified)
or returns its result. -/
structure Bucket where
  putResult : String → Except String Unit
  listResult : ListOptions → Except String Listed
  getResult : String → Except String (Option StoredObject)

/-- A backend whose operations all succeed trivially (empty store),
used to instantiate witnesses. -/
def emptyBucket : Bucket where
  putResult := fun _ => .ok ()
  listResult := fun _ => .ok ⟨[], false, none, []⟩
  getResult := fun _ => .ok none

/-- A call made to the storage backend, recorded by the handlers. -/
inductive StorageCall where
  | put (key : String)
  | listObjects (opts : ListOptions)
  | getObject (key : String)
deriving DecidableEq

/-- `createResponse`: body is `JSON.stringify(content, null, 2)`,
status defaults to 400 (`options.status ?? 400`), and the four headers
are fixed — note `Access-Control-Allow-Methods` is always `"PUT"`. -/
def createResponse (content : Json) (status : Option Nat) : Response where
  status := status.getD 400
  headers :=
    [("Access-Control-Allow-Origin", "*"),
     ("Access-Control-Allow-Methods", "PUT"),
     ("Access-Control-Allow-Headers", "Content-Type"),
     ("Content-Type", "application/json;charset=UTF-8")]
  body := jsonStringify content

/-! ## Upload handler -/

/-- JS truthiness of a `string | null` value: `null` and `""` are falsy. -/
def truthy : Option String → Bool
  | none => false
  | some s => s != ""

/-- `request.headers.get("content-type")?.split(";")[0]`: the first
segment of `split(";")` is the prefix up to the first `;` (the whole
string when there is none). -/
def parsedContentType (req : Request) : Option String :=
  req.contentTypeHeader.map (fun s => ⟨s.data.takeWhile (fun c => c != ';')⟩)

/-- The JS value `contentLengthHeaderValue && parseInt(contentLengthHeaderValue, 10)`
collapsed to the numbers it can hold: `none` stands for `null`, `""`
and `NaN` (all falsy non-numbers). -/
def contentLengthVal (req : Request) : Option Int :=
  match req.contentLengthHeader with
  | none => none
  | some s => if s = "" then none else jsParseInt s

/-- The condition of the 413 branch:
`!contentLength || contentLength > WAKE_WORD_MAX_CONTENT_LENGTH`
(falsy covers `null`, `""`, `NaN` and `0`). -/
def contentLengthBad (req : Request) : Bool :=
  match contentLengthVal req with
  | none => true
  | some n => n == 0 || n > WAKE_WORD_MAX_CONTENT_LENGTH

/-- How `${contentLength}` prints in the 413 message. -/
def contentLengthDisplay (req : Request) : String :=
  match req.contentLengthHeader with
  | none => "null"
  | some s =>
    if s = "" then ""
    else match jsParseInt s with
      | none => "NaN"
      | some n => toString n

/-- `searchParams.get("age") || ""`. -/
def ageOf (req : Request) : String := req.age.getD ""

/-- `searchParams.get("gender") || "do_not_wish_to_say"`. -/
def genderOf (req : Request) : String :=
  match req.gender with
  | none => "do_not_wish_to_say"
  | some s => if s = "" then "do_not_wish_to_say" else s

/-- The language keys of LEGACY_ACCENTS (`Object.keys(LEGACY_ACCENTS)`). -/
def Demographics.languages (d : Demographics) : List String :=
  d.LEGACY_ACCENTS.map (fun p => p.1)

/-- The ordered validation chain of `handleUploadAudioFile` (source
lines 49-148): the first failing check's response, or `none` when every
check passes. The checks and their order mirror the source exactly. -/
def uploadValidation (d : Demographics) (req : Request) : Option Response :=
  if req.method != "PUT" then
    some (createResponse (.obj [("message", .str "Invalid method")]) (some 405))
  else if !(truthy (parsedContentType req))
      || !(WAKE_WORD_ALLOWED_CONTENT_TYPES.contains ((parsedContentType req).getD "")) then
    some (createResponse
      (.obj [("message", .str ("Invalid content-type, received: "
        ++ (parsedContentType req).getD "undefined" ++ ", allowed: "
        ++ jsJoin "," WAKE_WORD_ALLOWED_CONTENT_TYPES))]) (some 415))
  else if contentLengthBad req then
    some (createResponse
      (.obj [("message", .str ("Invalid content-length, received: "
        ++ contentLengthDisplay req ++ ", allowed [<"
        ++ toString WAKE_WORD_MAX_CONTENT_LENGTH ++ "]"))]) (some 413))
  else if !(truthy req.wake_word) then
    some (createResponse
      (.obj [("message", .str "Invalid parameters: missing wake_word")]) none)
  else if !((WAKE_WORD_ALLOWED_NAMES ++ NEGATIVE_WAKE_WORD_ALLOWED_NAMES).contains
      (req.wake_word.getD "")) then
    some (createResponse
      (.obj [("message", .str ("Invalid wake word, received: "
        ++ req.wake_word.getD ""))]) none)
  else if !(d.AGES.contains (ageOf req)) then
    some (createResponse
      (.obj [("message", .str ("Invalid age, received: " ++ ageOf req ++ ", allowed: "
        ++ jsJoin ", " (d.AGES.filter (fun k => k != ""))))]) none)
  else if !(d.GENDERS.contains (genderOf req)) then
    some (createResponse
      (.obj [("message", .str ("Invalid gender, received: " ++ genderOf req
        ++ ", allowed: " ++ jsJoin ", " d.GENDERS))]) none)
  else if truthy req.language || truthy req.accent then
    if !(truthy req.language) || !(truthy req.accent) then
      some (createResponse
        (.obj [("message", .str "Both language and accent must be provided together")])
        none)
    else if !(d.languages.contains (req.language.getD "")) then
      some (createResponse
        (.obj [("message", .str ("Invalid language, received: "
          ++ req.language.getD "" ++ ", allowed: "
          ++ jsJoin ", " d.languages))]) none)
    else if !((d.accentsFor (req.language.getD "")).contains (req.accent.getD "")) then
      some (createResponse
        (.obj [("message", .str ("Invalid accent for language "
          ++ req.language.getD "" ++ ", received: " ++ req.accent.getD ""
          ++ ", allowed: "
          ++ jsJoin ", " (d.accentsFor (req.language.getD ""))))]) none)
    else none
  else none

/-- The `languageAccent` variable at the point the key is built:
`` `${language}_${accent}` `` when both are truthy, else `null`. (The
source sets it only after validation, where both-truthy is equivalent
to the guard `language || accent` it sits under.) -/
def languageAccentOf (req : Request) : Option String :=
  if truthy req.language && truthy req.accent then
    some (req.language.getD "" ++ "_" ++ req.accent.getD "")
  else none

/-- `` `${timestamp}-${randomString}` `` (`Date.now()` and the
`Math.random()` fragment are explicit arguments). -/
def uniqueId (timestamp : Nat) (randomString : String) : String :=
  toString timestamp ++ "-" ++ randomString

/-- `const identifier = cfRay || uniqueId`. -/
def identifierOf (req : Request) (timestamp : Nat) (randomString : String) : String :=
  match req.cfRay with
  | none => uniqueId timestamp randomString
  | some s => if s = "" then uniqueId timestamp randomString else s

/-- `isNegative = NEGATIVE_WAKE_WORD_ALLOWED_NAMES.includes(wakeWord)`. -/
def isNegative (req : Request) : Bool :=
  NEGATIVE_WAKE_WORD_ALLOWED_NAMES.contains (req.wake_word.getD "")

/-- `keyExtension = contentType.replace("audio/", "")`. -/
def keyExtension (req : Request) : String :=
  jsReplaceFirst ((parsedContentType req).getD "") "audio/" ""

/-- The `filenameParts` array after its
`.filter(part => part !== null && part !== "")`: nulls are dropped by
`filterMap id`, empty strings by the final filter (the `|| null` on
`languageAccent` and `age` is kept as in the source). -/
def uploadFilenameParts (req : Request) (timestamp : Nat) (randomString : String) :
    List String :=
  (([(if isNegative req then some "negative" else none),
     some (req.wake_word.getD ""),
     (match languageAccentOf req with
      | some la => if la = "" then none else some la
      | none => none),
     (if ageOf req = "" then none else some (ageOf req)),
     some (genderOf req),
     some (identifierOf req timestamp randomString)] : List (Option String)).filterMap
    id).filter (fun p => p != "")

/-- `` key = `${filenameParts.join("-")}.${keyExtension}` ``. -/
def uploadKey (req : Request) (timestamp : Nat) (randomString : String) : String :=
  jsJoin "-" (uploadFilenameParts req timestamp randomString) ++ "." ++ keyExtension req

/-- `handleUploadAudioFile`: run the validation chain; on failure
return its response having made no storage call; on success put the
body under the computed key — a `put` error is NOT caught and
propagates as `Except.error` — and return 201 with the key. -/
def handleUploadAudioFile (d : Demographics) (req : Request) (bucket : Bucket)
    (timestamp : Nat) (randomString : String) :
    Except String (Response × List StorageCall) :=
  match uploadValidation d req with
  | some resp => .ok (resp, [])
  | none =>
    let key := uploadKey req timestamp randomString
    match bucket.putResult key with
    | .error e => .error e
    | .ok _ =>
      .ok (createResponse (.obj [("message", .str "success"), ("key", .str key)])
        (some 201), [.put key])

/-! ## List handler -/

/-- The options `handleListFiles` passes to `bucket.list`:
`limit: Math.min(parseInt(limit || "1000", 10), 1000)` (where
`Math.min(NaN, 1000)` is `NaN`, i.e. `none`), `prefix: prefix || ""`,
`cursor: cursor || undefined`. -/
def listCallOptions (req : Request) : ListOptions where
  limit :=
    (jsParseInt (match req.limit with
      | none => "1000"
      | some s => if s = "" then "1000" else s)).map (fun n => min n 1000)
  prefixStr := req.prefixParam.getD ""
  cursor :=
    match req.cursor with
    | none => none
    | some s => if s = "" then none else some s

/-- The 200 response of the list handler: GET allow-methods header and
the pretty-printed envelope (a `cursor: undefined` field is dropped by
`JSON.stringify`, as in JS). -/
def listSuccessResponse (listed : Listed) : Response where
  status := 200
  headers :=
    [("Access-Control-Allow-Origin", "*"),
     ("Access-Control-Allow-Methods", "GET"),
     ("Access-Control-Allow-Headers", "Content-Type"),
     ("Content-Type", "application/json;charset=UTF-8")]
  body := jsonStringify (.obj
    ([("objects", .arr (listed.objects.map (fun o => .obj
        [("key", .str o.key), ("size", .num o.size),
         ("uploaded", .str o.uploadedISO), ("httpMetadata", o.httpMetadata)]))),
      ("truncated", .bool listed.truncated)]
     ++ (match listed.cursor with
         | some c => [("cursor", Json.str c)]
         | none => [])
     ++ [("delimitedPrefixes", .arr (listed.delimitedPrefixes.map Json.str))]))

/-- `handleListFiles`: call `bucket.list`; a thrown backend error is
caught and converted to a 500 via `createResponse`. -/
def handleListFiles (req : Request) (bucket : Bucket) : Response × List StorageCall :=
  match bucket.listResult (listCallOptions req) with
  | .ok listed => (listSuccessResponse listed, [.listObjects (listCallOptions req)])
  | .error e =>
    (createResponse
      (.obj [("message", .str "Error listing files"), ("error", .str e)])
      (some 500), [.listObjects (listCallOptions req)])

/-! ## Download handler -/

/-- The 200 streaming response of the download handler: headers are
built with `Headers.set` in source order, the Content-Type one only
when the stored metadata has a truthy contentType. -/
def downloadSuccessResponse (key : String) (obj : StoredObject) : Response where
  status := 200
  headers :=
    [("Access-Control-Allow-Origin", "*"),
     ("Access-Control-Allow-Methods", "GET"),
     ("Access-Control-Allow-Headers", "Content-Type")]
    ++ (match obj.contentType with
        | some ct => if ct = "" then [] else [("Content-Type", ct)]
        | none => [])
    ++ [("Content-Disposition", "attachment; filename=\"" ++ key ++ "\""),
        ("Content-Length", toString obj.size)]
  body := obj.body

/-- `handleDownloadFile`: 400 when `key` is falsy; otherwise `get` the
object — a thrown backend error is caught and converted to a 500 —
then 404 when absent, else the streaming 200. -/
def handleDownloadFile (req : Request) (bucket : Bucket) : Response × List StorageCall :=
  if !(truthy req.key) then
    (createResponse (.obj [("message", .str "Missing required parameter: key")])
      (some 400), [])
  else
    match bucket.getResult (req.key.getD "") with
    | .error e =>
      (createResponse
        (.obj [("message", .str "Error downloading file"), ("error", .str e)])
        (some 500), [.getObject (req.key.getD "")])
    | .ok none =>
      (createResponse (.obj [("message", .str ("File not found: " ++ req.key.getD ""))])
        (some 404), [.getObject (req.key.getD "")])
    | .ok (some obj) =>
      (downloadSuccessResponse (req.key.getD "") obj, [.getObject (req.key.getD "")])

/-! ## Dispatcher -/

/-- `assistHandler`: answer any OPTIONS request with 200 `"ok"` before
route matching; otherwise match `requestUrl.pathname` against the three
routes, defaulting to 404 `"Not Found"`. An error escaping the upload
handler propagates unchanged. -/
def assistHandler (d : Demographics) (req : Request) (bucket : Bucket)
    (timestamp : Nat) (randomString : String) :
    Except String (Response × List StorageCall) :=
  if req.method == "OPTIONS" then
    .ok (createResponse (.str "ok") (some 200), [])
  else if req.pathname == WAKE_WORD_TRAINING_UPLOAD then
    handleUploadAudioFile d req bucket timestamp randomString
  else if req.pathname == WAKE_WORD_TRAINING_LIST then
    .ok (handleListFiles req bucket)
  else if req.pathname == WAKE_WORD_TRAINING_DOWNLOAD then
    .ok (handleDownloadFile req bucket)
  else
    .ok (createResponse (.str "Not Found") (some 404), [])

/-! ## Derived predicates and helper lemmas -/

/-- The content-type check of the upload handler passes: the parsed
base media type is truthy and in the allow-list. -/
def contentTypeOk (req : Request) : Bool :=
  truthy (parsedContentType req)
    && WAKE_WORD_ALLOWED_CONTENT_TYPES.contains ((parsedContentType req).getD "")

/-- The four fixed CORS headers with the given allow-methods value. -/
def corsHeaders (method : String) : List (String × String) :=
  [("Access-Control-Allow-Origin", "*"),
   ("Access-Control-Allow-Methods", method),
   ("Access-Control-Allow-Headers", "Content-Type"),
   ("Content-Type", "application/json;charset=UTF-8")]

/-- The tail of the upload validation chain from the wake_word check
onward (source lines 72-148); `uploadValidation` continues here once
method, content-type and content-length have passed. -/
def uploadValidationFromWakeWord (d : Demographics) (req : Request) : Option Response :=
  if !(truthy req.wake_word) then
    some (createResponse
      (.obj [("message", .str "Invalid parameters: missing wake_word")]) none)
  else if !((WAKE_WORD_ALLOWED_NAMES ++ NEGATIVE_WAKE_WORD_ALLOWED_NAMES).contains
      (req.wake_word.getD "")) then
    some (createResponse
      (.obj [("message", .str ("Invalid wake word, received: "
        ++ req.wake_word.getD ""))]) none)
  else if !(d.AGES.contains (ageOf req)) then
    some (createResponse
      (.obj [("message", .str ("Invalid age, received: " ++ ageOf req ++ ", allowed: "
        ++ jsJoin ", " (d.AGES.filter (fun k => k != ""))))]) none)
  else if !(d.GENDERS.contains (genderOf req)) then
    some (createResponse
      (.obj [("message", .str ("Invalid gender, received: " ++ genderOf req
        ++ ", allowed: " ++ jsJoin ", " d.GENDERS))]) none)
  else if truthy req.language || truthy req.accent then
    if !(truthy req.language) || !(truthy req.accent) then
      some (createResponse
        (.obj [("message", .str "Both language and accent must be provided together")])
        none)
    else if !(d.languages.contains (req.language.getD "")) then
      some (createResponse
        (.obj [("message", .str ("Invalid language, received: "
          ++ req.language.getD "" ++ ", allowed: "
          ++ jsJoin ", " d.languages))]) none)
    else if !((d.accentsFor (req.language.getD "")).contains (req.accent.getD "")) then
      some (createResponse
        (.obj [("message", .str ("Invalid accent for language "
          ++ req.language.getD "" ++ ", received: " ++ req.accent.getD ""
          ++ ", allowed: "
          ++ jsJoin ", " (d.accentsFor (req.language.getD ""))))]) none)
    else none
  else none

/-! ## Key-structure lemmas (C3, C4) -/

/-- The subtype of a media type, as C3 words it: the part after the
first `/` (e.g. `audio/webm` yields `webm`). -/
def contentSubtype (ct : String) : String :=
  ⟨(ct.data.dropWhile (fun c => c != '/')).drop 1⟩

/-- The storage key as C3 describes it: the hyphen-joined concatenation,
in this fixed order, of the non-empty, non-absent parts [negative marker
(only when wake_word is in the negative list), wake_word,
`{language}_{accent}` (only when both are given), age (only when
non-empty), gender, identifier], followed by `.` and the content-type's
subtype. -/
def claimedKey (req : Request) (timestamp : Nat) (randomString : String) : String :=
  jsJoin "-"
    (((if NEGATIVE_WAKE_WORD_ALLOWED_NAMES.contains (req.wake_word.getD "")
        then ["negative"] else [])
      ++ [req.wake_word.getD ""]
      ++ (if truthy req.language && truthy req.accent
          then [req.language.getD "" ++ "_" ++ req.accent.getD ""] else [])
      ++ (if ageOf req = "" then [] else [ageOf req])
      ++ [genderOf req]
      ++ [identifierOf req timestamp randomString]).filter (fun p => p != ""))
  ++ "." ++ contentSubtype ((parsedContentType req).getD "")

/-- `s` begins with `p`: the char list of `p` is a prefix of the char
list of `s` (the semantics of JS `String.prototype.startsWith`). -/
def beginsWith (s p : String) : Bool := p.data.isPrefixOf s.data

/-! ## Concrete fixtures used by witnesses and counterexamples -/

/-- A well-formed upload request (valid method, content-type,
content-length and wake word; demographics left at their defaults). -/
def uploadReqW : Request where
  method := "PUT"
  pathname := WAKE_WORD_TRAINING_UPLOAD
  contentTypeHeader := some "audio/webm"
  contentLengthHeader := some "1000"
  cfRay := some "ray-1"
  wake_word := some "hey_nexus"
  age := none
  gender := none
  language := none
  accent := none
  limit := none
  prefixParam := none
  cursor := none
  key := some "sample.webm"
  body := "bytes"

/-- A valid negative-sample upload request: negative wake word with
language, accent and age set. -/
def negUploadReqW : Request :=
  { uploadReqW with
    wake_word := some "texas"
    age := some "child"
    language := some "en"
    accent := some "us" }

/-- A backend whose every operation throws. -/
def errorBucket : Bucket where
  putResult := fun _ => .error "boom"
  listResult := fun _ => .error "boom"
  getResult := fun _ => .error "boom"

deriving instance DecidableEq for Except

/-! ## Helper lemmas -/

theorem createResponse_headers (c : Json) (s : Option Nat) :
    (createResponse c s).headers = corsHeaders "PUT" := rfl

/-- Once method, content-type and content-length have passed,
validation continues with the wake_word check. -/
theorem uploadValidation_eq_fromWakeWord (d : Demographics) (req : Request)
    (hm : req.method = "PUT") (hct : contentTypeOk req = true)
    (hcl : contentLengthBad req = false) :
    uploadValidation d req = uploadValidationFromWakeWord d req := by
  have hct1 : truthy (parsedContentType req) = true :=
    (Bool.and_eq_true _ _ ▸ hct).1
  have hct2 : (parsedContentType req).getD "" ∈ WAKE_WORD_ALLOWED_CONTENT_TYPES := by
    have h2 := (Bool.and_eq_true _ _ ▸ hct).2
    simpa using h2
  unfold uploadValidation uploadValidationFromWakeWord
  simp [hm, hct1, hct2, hcl]

/-- Every response of the validation chain is built by `createResponse`
(so carries the PUT headers) with a status among 405, 415, 413, 400. -/
theorem uploadValidation_some_shape (d : Demographics) (req : Request) (resp : Response)
    (h : uploadValidation d req = some resp) :
    resp.headers = corsHeaders "PUT"
    ∧ (resp.status = 405 ∨ resp.status = 415 ∨ resp.status = 413 ∨ resp.status = 400) := by
  unfold uploadValidation at h
  by_cases h1 : (req.method != "PUT") = true
  · rw [if_pos h1] at h
    injection h with h
    subst h
    exact ⟨rfl, by simp [createResponse]⟩
  rw [if_neg h1] at h
  by_cases h2 : (!truthy (parsedContentType req)
      || !WAKE_WORD_ALLOWED_CONTENT_TYPES.contains ((parsedContentType req).getD "")) = true
  · rw [if_pos h2] at h
    injection h with h
    subst h
    exact ⟨rfl, by simp [createResponse]⟩
  rw [if_neg h2] at h
  by_cases h3 : contentLengthBad req = true
  · rw [if_pos h3] at h
    injection h with h
    subst h
    exact ⟨rfl, by simp [createResponse]⟩
  rw [if_neg h3] at h
  by_cases h4 : (!truthy req.wake_word) = true
  · rw [if_pos h4] at h
    injection h with h
    subst h
    exact ⟨rfl, by simp [createResponse]⟩
  rw [if_neg h4] at h
  by_cases h5 : (!(WAKE_WORD_ALLOWED_NAMES ++ NEGATIVE_WAKE_WORD_ALLOWED_NAMES).contains
      (req.wake_word.getD "")) = true
  · rw [if_pos h5] at h
    injection h with h
    subst h
    exact ⟨rfl, by simp [createResponse]⟩
  rw [if_neg h5] at h
  by_cases h6 : (!d.AGES.contains (ageOf req)) = true
  · rw [if_pos h6] at h
    injection h with h
    subst h
    exact ⟨rfl, by simp [createResponse]⟩
  rw [if_neg h6] at h
  by_cases h7 : (!d.GENDERS.contains (genderOf req)) = true
  · rw [if_pos h7] at h
    injection h with h
    subst h
    exact ⟨rfl, by simp [createResponse]⟩
  rw [if_neg h7] at h
  by_cases h8 : (truthy req.language || truthy req.accent) = true
  · rw [if_pos h8] at h
    by_cases h9 : (!truthy req.language || !truthy req.accent) = true
    · rw [if_pos h9] at h
      injection h with h
      subst h
      exact ⟨rfl, by simp [createResponse]⟩
    rw [if_neg h9] at h
    by_cases h10 : (!d.languages.contains (req.language.getD "")) = true
    · rw [if_pos h10] at h
      injection h with h
      subst h
      exact ⟨rfl, by simp [createResponse]⟩
    rw [if_neg h10] at h
    by_cases h11 : (!(d.accentsFor (req.language.getD "")).contains (req.accent.getD "")) = true
    · rw [if_pos h11] at h
      injection h with h
      subst h
      exact ⟨rfl, by simp [createResponse]⟩
    rw [if_neg h11] at h
    exact absurd h (by simp)
  rw [if_neg h8] at h
  exact absurd h (by simp)

/-- A request that passes the whole validation chain satisfies each
check's condition. -/
theorem uploadValidation_none_facts (d : Demographics) (req : Request)
    (h : uploadValidation d req = none) :
    req.method = "PUT"
    ∧ truthy (parsedContentType req) = true
    ∧ (parsedContentType req).getD "" ∈ WAKE_WORD_ALLOWED_CONTENT_TYPES
    ∧ contentLengthBad req = false
    ∧ truthy req.wake_word = true
    ∧ req.wake_word.getD "" ∈ WAKE_WORD_ALLOWED_NAMES ++ NEGATIVE_WAKE_WORD_ALLOWED_NAMES
    ∧ ageOf req ∈ d.AGES
    ∧ genderOf req ∈ d.GENDERS
    ∧ truthy req.language = truthy req.accent
    ∧ (truthy req.language = true →
        req.language.getD "" ∈ d.languages
        ∧ req.accent.getD "" ∈ d.accentsFor (req.language.getD "")) := by
  unfold uploadValidation at h
  by_cases h1 : (req.method != "PUT") = true
  · rw [if_pos h1] at h; exact absurd h (by simp)
  rw [if_neg h1] at h
  by_cases h2 : (!truthy (parsedContentType req)
      || !WAKE_WORD_ALLOWED_CONTENT_TYPES.contains ((parsedContentType req).getD "")) = true
  · rw [if_pos h2] at h; exact absurd h (by simp)
  rw [if_neg h2] at h
  by_cases h3 : contentLengthBad req = true
  · rw [if_pos h3] at h; exact absurd h (by simp)
  rw [if_neg h3] at h
  by_cases h4 : (!truthy req.wake_word) = true
  · rw [if_pos h4] at h; exact absurd h (by simp)
  rw [if_neg h4] at h
  by_cases h5 : (!(WAKE_WORD_ALLOWED_NAMES ++ NEGATIVE_WAKE_WORD_ALLOWED_NAMES).contains
      (req.wake_word.getD "")) = true
  · rw [if_pos h5] at h; exact absurd h (by simp)
  rw [if_neg h5] at h
  by_cases h6 : (!d.AGES.contains (ageOf req)) = true
  · rw [if_pos h6] at h; exact absurd h (by simp)
  rw [if_neg h6] at h
  by_cases h7 : (!d.GENDERS.contains (genderOf req)) = true
  · rw [if_pos h7] at h; exact absurd h (by simp)
  rw [if_neg h7] at h
  have hm : req.method = "PUT" := by simpa using h1
  have hct : truthy (parsedContentType req) = true
      ∧ (parsedContentType req).getD "" ∈ WAKE_WORD_ALLOWED_CONTENT_TYPES := by
    simpa using h2
  have hcl : contentLengthBad req = false := by simpa using h3
  have hww : truthy req.wake_word = true := by simpa using h4
  have hwwm : req.wake_word.getD "" ∈ WAKE_WORD_ALLOWED_NAMES
      ++ NEGATIVE_WAKE_WORD_ALLOWED_NAMES := by
    rw [List.mem_append]
    by_cases hA : req.wake_word.getD "" ∈ WAKE_WORD_ALLOWED_NAMES
    · exact Or.inl hA
    · have h5' : req.wake_word.getD "" ∉ WAKE_WORD_ALLOWED_NAMES →
          req.wake_word.getD "" ∈ NEGATIVE_WAKE_WORD_ALLOWED_NAMES := by simpa using h5
      exact Or.inr (h5' hA)
  have hage : ageOf req ∈ d.AGES := by simpa using h6
  have hgen : genderOf req ∈ d.GENDERS := by simpa using h7
  by_cases h8 : (truthy req.language || truthy req.accent) = true
  · rw [if_pos h8] at h
    by_cases h9 : (!truthy req.language || !truthy req.accent) = true
    · rw [if_pos h9] at h; exact absurd h (by simp)
    rw [if_neg h9] at h
    by_cases h10 : (!d.languages.contains (req.language.getD "")) = true
    · rw [if_pos h10] at h; exact absurd h (by simp)
    rw [if_neg h10] at h
    by_cases h11 : (!(d.accentsFor (req.language.getD "")).contains (req.accent.getD "")) = true
    · rw [if_pos h11] at h; exact absurd h (by simp)
    have hla : truthy req.language = true ∧ truthy req.accent = true := by
      simpa using h9
    have hl : req.language.getD "" ∈ d.languages := by simpa using h10
    have ha : req.accent.getD "" ∈ d.accentsFor (req.language.getD "") := by
      simpa using h11
    exact ⟨hm, hct.1, hct.2, hcl, hww, hwwm, hage, hgen,
      hla.1.trans hla.2.symm, fun _ => ⟨hl, ha⟩⟩
  have hla : truthy req.language = false ∧ truthy req.accent = false := by
    simpa using h8
  refine ⟨hm, hct.1, hct.2, hcl, hww, hwwm, hage, hgen,
    hla.1.trans hla.2.symm, fun hT => ?_⟩
  rw [hla.1] at hT
  exact absurd hT (by simp)

/-- Every failing check from the wake_word check onward answers with
status 400 (each of those calls `createResponse` with no status, which
defaults to 400). -/
theorem uploadValidationFromWakeWord_some_status (d : Demographics) (req : Request)
    (resp : Response) (h : uploadValidationFromWakeWord d req = some resp) :
    resp.status = 400 := by
  unfold uploadValidationFromWakeWord at h
  by_cases h4 : (!truthy req.wake_word) = true
  · rw [if_pos h4] at h
    injection h with h
    subst h
    rfl
  rw [if_neg h4] at h
  by_cases h5 : (!(WAKE_WORD_ALLOWED_NAMES ++ NEGATIVE_WAKE_WORD_ALLOWED_NAMES).contains
      (req.wake_word.getD "")) = true
  · rw [if_pos h5] at h
    injection h with h
    subst h
    rfl
  rw [if_neg h5] at h
  by_cases h6 : (!d.AGES.contains (ageOf req)) = true
  · rw [if_pos h6] at h
    injection h with h
    subst h
    rfl
  rw [if_neg h6] at h
  by_cases h7 : (!d.GENDERS.contains (genderOf req)) = true
  · rw [if_pos h7] at h
    injection h with h
    subst h
    rfl
  rw [if_neg h7] at h
  by_cases h8 : (truthy req.language || truthy req.accent) = true
  · rw [if_pos h8] at h
    by_cases h9 : (!truthy req.language || !truthy req.accent) = true
    · rw [if_pos h9] at h
      injection h with h
      subst h
      rfl
    rw [if_neg h9] at h
    by_cases h10 : (!d.languages.contains (req.language.getD "")) = true
    · rw [if_pos h10] at h
      injection h with h
      subst h
      rfl
    rw [if_neg h10] at h
    by_cases h11 : (!(d.accentsFor (req.language.getD "")).contains (req.accent.getD "")) = true
    · rw [if_pos h11] at h
      injection h with h
      subst h
      rfl
    rw [if_neg h11] at h
    exact absurd h (by simp)
  rw [if_neg h8] at h
  exact absurd h (by simp)

/-- On a validation failure the handler returns the failing check's
response and performs no storage call. -/
theorem handleUpload_of_validation_some (d : Demographics) (req : Request)
    (bucket : Bucket) (t : Nat) (r : String) (resp : Response)
    (h : uploadValidation d req = some resp) :
    handleUploadAudioFile d req bucket t r = .ok (resp, []) := by
  unfold handleUploadAudioFile
  rw [h]

/-- When validation passes the handler puts the body under the key and
answers 201, or propagates the put's error. -/
theorem handleUpload_of_validation_none (d : Demographics) (req : Request)
    (bucket : Bucket) (t : Nat) (r : String)
    (h : uploadValidation d req = none) :
    handleUploadAudioFile d req bucket t r =
      match bucket.putResult (uploadKey req t r) with
      | .error e => .error e
      | .ok _ =>
        .ok (createResponse
          (.obj [("message", .str "success"), ("key", .str (uploadKey req t r))])
          (some 201), [.put (uploadKey req t r)]) := by
  unfold handleUploadAudioFile
  rw [h]


/-! ## Claims -/

/-- C8: for every request with method OPTIONS, regardless of its path
(including paths matching no route), the dispatcher returns status 200
with body `"ok"` (the JSON-encoded string) before any route matching;
no handler runs and no storage call occurs (the call list is empty and
the result does not depend on the path, the backend, or the
nondeterministic inputs). -/
theorem options_preflight_short_circuit (d : Demographics) (req : Request)
    (bucket : Bucket) (t : Nat) (r : String) (h : req.method = "OPTIONS") :
    assistHandler d req bucket t r = .ok (createResponse (.str "ok") (some 200), [])
    ∧ (createResponse (.str "ok") (some 200)).status = 200
    ∧ (createResponse (.str "ok") (some 200)).body = "\"ok\"" := by
  refine ⟨?_, rfl, by decide⟩
  unfold assistHandler
  simp [h]

/-- Witness for C8: an OPTIONS request to a path matching no route. -/
theorem options_preflight_short_circuit_witness :
    ({ uploadReqW with method := "OPTIONS", pathname := "/no/such/route" } : Request).method
      = "OPTIONS"
    ∧ assistHandler specDemographics
        { uploadReqW with method := "OPTIONS", pathname := "/no/such/route" }
        errorBucket 0 "r" = .ok (createResponse (.str "ok") (some 200), []) :=
  ⟨rfl, (options_preflight_short_circuit specDemographics
    { uploadReqW with method := "OPTIONS", pathname := "/no/such/route" }
    errorBucket 0 "r" rfl).1⟩

/-- C10: for every upload request carrying a non-empty cf-ray header,
the identifier used in the storage key is that header value exactly, so
the computed key — and the entire handler result — is the same for any
values of the clock and of the random fragment: the key is a
deterministic function of the request. -/
theorem upload_key_deterministic_with_cf_ray (d : Demographics) (req : Request)
    (bucket : Bucket) (s : String) (h : req.cfRay = some s) (hs : s ≠ "")
    (t₁ t₂ : Nat) (r₁ r₂ : String) :
    identifierOf req t₁ r₁ = s
    ∧ uploadKey req t₁ r₁ = uploadKey req t₂ r₂
    ∧ handleUploadAudioFile d req bucket t₁ r₁
        = handleUploadAudioFile d req bucket t₂ r₂ := by
  have hid : ∀ t, ∀ r, identifierOf req t r = s := by
    intro t r
    unfold identifierOf
    rw [h]
    simp [hs]
  have hkey : uploadKey req t₁ r₁ = uploadKey req t₂ r₂ := by
    unfold uploadKey uploadFilenameParts
    rw [hid t₁ r₁, hid t₂ r₂]
  refine ⟨hid t₁ r₁, hkey, ?_⟩
  unfold handleUploadAudioFile
  rw [hkey]

/-- Witness for C10: the same request with two different clock/random
inputs yields identical keys and results. -/
theorem upload_key_deterministic_with_cf_ray_witness :
    uploadReqW.cfRay = some "ray-1"
    ∧ "ray-1" ≠ ""
    ∧ identifierOf uploadReqW 3 "aaa" = "ray-1"
    ∧ uploadKey uploadReqW 3 "aaa" = uploadKey uploadReqW 99 "zzz" :=
  ⟨rfl, by decide,
    (upload_key_deterministic_with_cf_ray specDemographics uploadReqW emptyBucket
      "ray-1" rfl (by decide) 3 99 "aaa" "zzz").1,
    (upload_key_deterministic_with_cf_ray specDemographics uploadReqW emptyBucket
      "ray-1" rfl (by decide) 3 99 "aaa" "zzz").2.1⟩

/-- C5: for every upload request that fails any validation check, the
handler returns that check's error response — whose status is one of
405, 415, 413, 400 — and makes no storage call at all (in particular no
put), leaving the stored-object state unchanged. -/
theorem upload_validation_failure_no_put (d : Demographics) (req : Request)
    (bucket : Bucket) (t : Nat) (r : String) (resp : Response)
    (h : uploadValidation d req = some resp) :
    handleUploadAudioFile d req bucket t r = .ok (resp, [])
    ∧ (resp.status = 405 ∨ resp.status = 415 ∨ resp.status = 413 ∨ resp.status = 400) :=
  ⟨handleUpload_of_validation_some d req bucket t r resp h,
   (uploadValidation_some_shape d req resp h).2⟩

/-- Witness for C5: a GET request to the upload route fails the method
check and performs no storage call. -/
theorem upload_validation_failure_no_put_witness :
    uploadValidation specDemographics { uploadReqW with method := "GET" }
      = some (createResponse (.obj [("message", .str "Invalid method")]) (some 405))
    ∧ (handleUploadAudioFile specDemographics { uploadReqW with method := "GET" }
        errorBucket 0 "r"
        = .ok (createResponse (.obj [("message", .str "Invalid method")]) (some 405), [])
      ∧ ((createResponse (.obj [("message", .str "Invalid method")]) (some 405)).status = 405
        ∨ (createResponse (.obj [("message", .str "Invalid method")]) (some 405)).status = 415
        ∨ (createResponse (.obj [("message", .str "Invalid method")]) (some 405)).status = 413
        ∨ (createResponse (.obj [("message", .str "Invalid method")]) (some 405)).status = 400)) :=
  ⟨by decide,
   upload_validation_failure_no_put specDemographics { uploadReqW with method := "GET" }
     errorBucket 0 "r" _ (by decide)⟩

/-- C2: when the storage backend's operation throws, the list and
download handlers catch it and return a 500 response whose JSON body
carries the message ("Error listing files" / "Error downloading file")
and the stringified error, while the upload handler does not catch an
error thrown by the put: it escapes the handler and the dispatcher
unchanged instead of being converted to a response. -/
theorem backend_error_handling_asymmetry (d : Demographics) (req : Request)
    (bucket : Bucket) (e : String) (t : Nat) (r : String)
    (hlist : bucket.listResult (listCallOptions req) = .error e)
    (hkey : truthy req.key = true)
    (hget : bucket.getResult (req.key.getD "") = .error e)
    (hvalid : uploadValidation d req = none)
    (hput : bucket.putResult (uploadKey req t r) = .error e)
    (hpath : req.pathname = WAKE_WORD_TRAINING_UPLOAD) :
    handleListFiles req bucket
      = (createResponse
          (.obj [("message", .str "Error listing files"), ("error", .str e)])
          (some 500), [.listObjects (listCallOptions req)])
    ∧ handleDownloadFile req bucket
      = (createResponse
          (.obj [("message", .str "Error downloading file"), ("error", .str e)])
          (some 500), [.getObject (req.key.getD "")])
    ∧ handleUploadAudioFile d req bucket t r = .error e
    ∧ assistHandler d req bucket t r = .error e := by
  have hup : handleUploadAudioFile d req bucket t r = .error e := by
    rw [handleUpload_of_validation_none d req bucket t r hvalid, hput]
  refine ⟨?_, ?_, hup, ?_⟩
  · unfold handleListFiles
    rw [hlist]
  · unfold handleDownloadFile
    simp only [hkey, Bool.not_true, Bool.false_eq_true, if_false]
    rw [hget]
  · have hm := (uploadValidation_none_facts d req hvalid).1
    unfold assistHandler
    rw [hpath, hm]
    simpa using hup

/-- Witness for C2: a valid upload request (also carrying list and
download parameters) against a backend whose operations all throw. -/
theorem backend_error_handling_asymmetry_witness :
    uploadValidation specDemographics uploadReqW = none
    ∧ handleListFiles uploadReqW errorBucket
        = (createResponse
            (.obj [("message", .str "Error listing files"), ("error", .str "boom")])
            (some 500), [.listObjects (listCallOptions uploadReqW)])
    ∧ handleUploadAudioFile specDemographics uploadReqW errorBucket 0 "r"
        = .error "boom"
    ∧ assistHandler specDemographics uploadReqW errorBucket 0 "r" = .error "boom" :=
  ⟨by decide,
   (backend_error_handling_asymmetry specDemographics uploadReqW errorBucket "boom" 0 "r"
     rfl (by decide) rfl (by decide) rfl rfl).1,
   (backend_error_handling_asymmetry specDemographics uploadReqW errorBucket "boom" 0 "r"
     rfl (by decide) rfl (by decide) rfl rfl).2.2.1,
   (backend_error_handling_asymmetry specDemographics uploadReqW errorBucket "boom" 0 "r"
     rfl (by decide) rfl (by decide) rfl rfl).2.2.2⟩

/-- C9: for every upload request whose gender query parameter is absent
or empty, the gender used for validation and key construction is
`"do_not_wish_to_say"`; since that value is a GENDERS key (a spec
invariant of the reference tables), the gender check passes, and the
filename parts of the computed key always contain this gender
segment. -/
theorem gender_default_applied (d : Demographics) (req : Request)
    (t : Nat) (r : String)
    (hg : req.gender = none ∨ req.gender = some "")
    (hd : "do_not_wish_to_say" ∈ d.GENDERS) :
    genderOf req = "do_not_wish_to_say"
    ∧ genderOf req ∈ d.GENDERS
    ∧ genderOf req ∈ uploadFilenameParts req t r := by
  have hgen : genderOf req = "do_not_wish_to_say" := by
    unfold genderOf
    rcases hg with h | h <;> rw [h]
    rfl
  refine ⟨hgen, hgen ▸ hd, ?_⟩
  unfold uploadFilenameParts
  refine List.mem_filter.mpr ⟨?_, ?_⟩
  · exact List.mem_filterMap.mpr ⟨some (genderOf req), by simp, rfl⟩
  · rw [hgen]
    decide

/-- Witness for C9: an upload request with no gender parameter. -/
theorem gender_default_applied_witness :
    (uploadReqW.gender = none ∨ uploadReqW.gender = some "")
    ∧ genderOf uploadReqW = "do_not_wish_to_say"
    ∧ genderOf uploadReqW ∈ specDemographics.GENDERS
    ∧ genderOf uploadReqW ∈ uploadFilenameParts uploadReqW 0 "r" :=
  ⟨Or.inl rfl,
   gender_default_applied specDemographics uploadReqW 0 "r" (Or.inl rfl) (by decide)⟩

/-- C7 counterexample: with `limit=abc` the string does not parse
(`parseInt` gives NaN), and `Math.min(NaN, 1000)` is NaN, so the limit
value passed to the backend's list call is NaN (`none` in the
embedding) — not an integer at most 1000 as the claim states for every
list request. -/
theorem list_limit_nan_counterexample :
    jsParseInt "abc" = none
    ∧ (listCallOptions { uploadReqW with limit := some "abc" }).limit = none :=
  ⟨rfl, rfl⟩

/-- C7 (amended): whenever the limit query parameter is absent or
parses to a number, the limit passed to the backend's list call is an
integer at most 1000 (absent defaults to 1000; larger requests are
capped); only a present non-numeric limit makes the passed value NaN.
On backend success the response has status 200. -/
theorem list_limit_capped (req : Request) (bucket : Bucket) :
    (∀ n : Int, (listCallOptions req).limit = some n → n ≤ 1000)
    ∧ (req.limit = none → (listCallOptions req).limit = some 1000)
    ∧ (∀ listed, bucket.listResult (listCallOptions req) = .ok listed →
        handleListFiles req bucket
          = (listSuccessResponse listed, [.listObjects (listCallOptions req)])
        ∧ (listSuccessResponse listed).status = 200) := by
  refine ⟨?_, ?_, ?_⟩
  · intro n hn
    unfold listCallOptions at hn
    simp only [Option.map_eq_some'] at hn
    obtain ⟨m, _, hmin⟩ := hn
    rw [← hmin]
    exact min_le_right m 1000
  · intro h0
    unfold listCallOptions
    rw [h0]
    rfl
  · intro listed hl
    constructor
    · unfold handleListFiles
      rw [hl]
    · rfl

/-- Witness for C7: `limit=5000` is capped to 1000; the empty backend
answers with a 200 list response. -/
theorem list_limit_capped_witness :
    (listCallOptions { uploadReqW with limit := some "5000" }).limit = some 1000
    ∧ ((listCallOptions { uploadReqW with limit := some "5000" }).limit = some 1000
        → (1000 : Int) ≤ 1000)
    ∧ (handleListFiles { uploadReqW with limit := some "5000" } emptyBucket).1.status
        = 200 :=
  ⟨by decide,
   fun h => (list_limit_capped { uploadReqW with limit := some "5000" } emptyBucket).1
     1000 h,
   by rw [((list_limit_capped { uploadReqW with limit := some "5000" } emptyBucket).2.2
       ⟨[], false, none, []⟩ rfl).1]
      rfl⟩

/-- C1 counterexample: a PUT upload request with allowed content-type
`audio/webm` and Content-Length header `"-1"`: `parseInt` yields the
negative integer -1, which is not a positive integer, yet the handler
does NOT return 413 — -1 is truthy and not above the ceiling, so the
content-length check passes and the handler proceeds (here to the
missing-wake_word 400). -/
theorem upload_negative_content_length_not_413 :
    jsParseInt "-1" = some (-1)
    ∧ contentLengthBad
        { uploadReqW with contentLengthHeader := some "-1", wake_word := none } = false
    ∧ handleUploadAudioFile specDemographics
        { uploadReqW with contentLengthHeader := some "-1", wake_word := none }
        emptyBucket 0 "r"
      = .ok (createResponse
          (.obj [("message", .str "Invalid parameters: missing wake_word")]) none, [])
    ∧ (createResponse
        (.obj [("message", .str "Invalid parameters: missing wake_word")]) none).status
      = 400 :=
  ⟨by decide, by decide, by decide, rfl⟩

/-- C1 (amended): for every upload request with method PUT and allowed
content-type, the handler returns 413 — and performs no other action —
exactly when the Content-Length header is absent, empty, does not parse
at all, parses to zero, or its parsed value exceeds 256000; when it
parses to a nonzero integer (positive or negative) not exceeding
256000, the content-length check passes and validation proceeds to the
wake_word check, and the result is never a 413. -/
theorem upload_content_length_gate (d : Demographics) (req : Request)
    (bucket : Bucket) (t : Nat) (r : String)
    (hm : req.method = "PUT") (hct : contentTypeOk req = true) :
    (contentLengthBad req = true ↔
      (contentLengthVal req = none ∨ contentLengthVal req = some 0
        ∨ ∃ n : Int, contentLengthVal req = some n ∧ n > 256000))
    ∧ (contentLengthBad req = true →
        handleUploadAudioFile d req bucket t r
          = .ok (createResponse
              (.obj [("message", .str ("Invalid content-length, received: "
                ++ contentLengthDisplay req ++ ", allowed [<"
                ++ toString WAKE_WORD_MAX_CONTENT_LENGTH ++ "]"))]) (some 413), []))
    ∧ (contentLengthBad req = false →
        uploadValidation d req = uploadValidationFromWakeWord d req)
    ∧ (∀ resp calls, contentLengthBad req = false →
        handleUploadAudioFile d req bucket t r = .ok (resp, calls) →
        resp.status ≠ 413) := by
  have hct' : truthy (parsedContentType req) = true
      ∧ WAKE_WORD_ALLOWED_CONTENT_TYPES.contains ((parsedContentType req).getD "") = true := by
    unfold contentTypeOk at hct
    exact Bool.and_eq_true _ _ ▸ hct
  refine ⟨?_, ?_, ?_, ?_⟩
  · unfold contentLengthBad
    cases hv : contentLengthVal req with
    | none => simp
    | some n =>
      simp only [Bool.or_eq_true, beq_iff_eq, decide_eq_true_eq, Option.some.injEq,
        reduceCtorEq, WAKE_WORD_MAX_CONTENT_LENGTH, false_or]
      constructor
      · rintro (h0 | hgt)
        · exact Or.inl h0
        · exact Or.inr ⟨n, rfl, by omega⟩
      · rintro (h0 | ⟨m, hm', hgt⟩)
        · exact Or.inl h0
        · exact Or.inr (by omega)
  · intro hb
    have hresp : uploadValidation d req
        = some (createResponse
            (.obj [("message", .str ("Invalid content-length, received: "
              ++ contentLengthDisplay req ++ ", allowed [<"
              ++ toString WAKE_WORD_MAX_CONTENT_LENGTH ++ "]"))]) (some 413)) := by
      have hctm : (parsedContentType req).getD "" ∈ WAKE_WORD_ALLOWED_CONTENT_TYPES := by
        simpa using hct'.2
      unfold uploadValidation
      rw [if_neg (by simp [hm]), if_neg (by simp [hct'.1, hctm]), if_pos hb]
    exact handleUpload_of_validation_some d req bucket t r _ hresp
  · intro hcl
    exact uploadValidation_eq_fromWakeWord d req hm hct hcl
  · intro resp calls hcl hh
    cases hv : uploadValidation d req with
    | some vresp =>
      rw [handleUpload_of_validation_some d req bucket t r vresp hv] at hh
      injection hh with hh
      injection hh with hh1 hh2
      have h400 : vresp.status = 400 := by
        refine uploadValidationFromWakeWord_some_status d req vresp ?_
        rw [← uploadValidation_eq_fromWakeWord d req hm hct hcl]
        exact hv
      rw [← hh1, h400]
      decide
    | none =>
      rw [handleUpload_of_validation_none d req bucket t r hv] at hh
      cases hp : bucket.putResult (uploadKey req t r) with
      | error e =>
        rw [hp] at hh
        exact absurd hh (by simp)
      | ok u =>
        rw [hp] at hh
        injection hh with hh
        injection hh with hh1 hh2
        rw [← hh1]
        simp [createResponse]

/-- Witness for C1: a PUT `audio/webm` request whose Content-Length
header is absent is answered with the 413 response and no storage
call. -/
theorem upload_content_length_gate_witness :
    contentTypeOk { uploadReqW with contentLengthHeader := none } = true
    ∧ contentLengthBad { uploadReqW with contentLengthHeader := none } = true
    ∧ handleUploadAudioFile specDemographics
        { uploadReqW with contentLengthHeader := none } emptyBucket 0 "r"
      = .ok (createResponse
          (.obj [("message", .str ("Invalid content-length, received: "
            ++ contentLengthDisplay { uploadReqW with contentLengthHeader := none }
            ++ ", allowed [<" ++ toString WAKE_WORD_MAX_CONTENT_LENGTH ++ "]"))])
          (some 413), []) :=
  ⟨by decide, by decide,
   (upload_content_length_gate specDemographics
     { uploadReqW with contentLengthHeader := none } emptyBucket 0 "r"
     rfl (by decide)).2.1 (by decide)⟩

/-- C6 counterexample: the download route's 400 response (missing key)
— a non-streaming JSON response on a GET route — carries
`Access-Control-Allow-Methods: PUT` (from the shared `createResponse`),
not GET as the claim states for download responses. -/
theorem error_responses_carry_put_allow_methods :
    (handleDownloadFile { uploadReqW with key := none } emptyBucket).1.headers
      = corsHeaders "PUT"
    ∧ (handleDownloadFile { uploadReqW with key := none } emptyBucket).1.headers.contains
        ("Access-Control-Allow-Methods", "GET") = false
    ∧ (handleDownloadFile { uploadReqW with key := none } emptyBucket).1.status = 400 :=
  ⟨by decide, by decide, by decide⟩

/-- C6 (amended): every non-streaming JSON response has headers
`Access-Control-Allow-Origin: *`, `Access-Control-Allow-Headers:
Content-Type`, `Content-Type: application/json;charset=UTF-8` and an
allow-methods header, and a body that is the content pretty-printed as
2-space-indented JSON; the allow-methods value is PUT for every
response built by the shared builder — all upload responses and the
list/download error responses included — and GET only for the list
handler's success response. -/
theorem response_headers_shape (d : Demographics) (req : Request) (bucket : Bucket)
    (t : Nat) (r : String) (content : Json) (status : Option Nat) (listed : Listed) :
    (createResponse content status).headers = corsHeaders "PUT"
    ∧ (createResponse content status).body = jsonStringify content
    ∧ (listSuccessResponse listed).headers = corsHeaders "GET"
    ∧ ((handleListFiles req bucket).1.headers = corsHeaders "PUT"
        ∨ (handleListFiles req bucket).1.headers = corsHeaders "GET")
    ∧ (∀ resp calls, handleUploadAudioFile d req bucket t r = .ok (resp, calls) →
        resp.headers = corsHeaders "PUT")
    ∧ ((handleDownloadFile req bucket).1.status ≠ 200 →
        (handleDownloadFile req bucket).1.headers = corsHeaders "PUT") := by
  refine ⟨rfl, rfl, rfl, ?_, ?_, ?_⟩
  · unfold handleListFiles
    cases hl : bucket.listResult (listCallOptions req) with
    | ok listed => exact Or.inr rfl
    | error e => exact Or.inl rfl
  · intro resp calls hh
    cases hv : uploadValidation d req with
    | some vresp =>
      rw [handleUpload_of_validation_some d req bucket t r vresp hv] at hh
      injection hh with hh
      injection hh with hh1 hh2
      rw [← hh1]
      exact (uploadValidation_some_shape d req vresp hv).1
    | none =>
      rw [handleUpload_of_validation_none d req bucket t r hv] at hh
      cases hp : bucket.putResult (uploadKey req t r) with
      | error e =>
        rw [hp] at hh
        exact absurd hh (by simp)
      | ok u =>
        rw [hp] at hh
        injection hh with hh
        injection hh with hh1 hh2
        rw [← hh1]
        rfl
  · intro hs
    unfold handleDownloadFile
    unfold handleDownloadFile at hs
    by_cases hk : (!truthy req.key) = true
    · rw [if_pos hk]
      rfl
    rw [if_neg hk]
    rw [if_neg hk] at hs
    cases hg : bucket.getResult (req.key.getD "") with
    | error e => rfl
    | ok obj =>
      cases obj with
      | none => rfl
      | some o =>
        rw [hg] at hs
        exact absurd rfl hs

/-- Witness for C6 (amended): concrete builder output and a concrete
list success response, plus the upload success response of a valid
request. -/
theorem response_headers_shape_witness :
    (createResponse (.str "Not Found") (some 404)).headers = corsHeaders "PUT"
    ∧ (listSuccessResponse ⟨[], false, none, []⟩).headers = corsHeaders "GET"
    ∧ ((handleListFiles uploadReqW emptyBucket).1.headers = corsHeaders "PUT"
        ∨ (handleListFiles uploadReqW emptyBucket).1.headers = corsHeaders "GET") :=
  ⟨(response_headers_shape specDemographics uploadReqW emptyBucket 0 "r"
      (.str "Not Found") (some 404) ⟨[], false, none, []⟩).1,
   (response_headers_shape specDemographics uploadReqW emptyBucket 0 "r"
      (.str "Not Found") (some 404) ⟨[], false, none, []⟩).2.2.1,
   (response_headers_shape specDemographics uploadReqW emptyBucket 0 "r"
      (.str "Not Found") (some 404) ⟨[], false, none, []⟩).2.2.2.1⟩



theorem filterMap_id_six (o1 o3 o4 : Option String) (w g i : String) :
    List.filterMap id [o1, some w, o3, o4, some g, some i]
      = o1.toList ++ [w] ++ o3.toList ++ o4.toList ++ [g] ++ [i] := by
  cases o1 <;> cases o3 <;> cases o4 <;> rfl

/-- The filename parts as a filtered concatenation of segments. -/
theorem uploadFilenameParts_eq (req : Request) (t : Nat) (r : String) :
    uploadFilenameParts req t r
      = ((if isNegative req then ["negative"] else [])
         ++ [req.wake_word.getD ""]
         ++ (match languageAccentOf req with
             | some la => if la = "" then [] else [la]
             | none => [])
         ++ (if ageOf req = "" then [] else [ageOf req])
         ++ [genderOf req]
         ++ [identifierOf req t r]).filter (fun p => p != "") := by
  unfold uploadFilenameParts
  rw [filterMap_id_six]
  congr 1
  cases hn : isNegative req <;>
    cases hla : languageAccentOf req <;>
    by_cases hage : ageOf req = "" <;>
    simp [hage] <;>
    split <;>
    simp

/-- The gender used in the key is never the empty string. -/
theorem genderOf_ne_empty (req : Request) : genderOf req ≠ "" := by
  unfold genderOf
  cases hg : req.gender with
  | none => decide
  | some s =>
    by_cases hs : s = "" <;> simp [hs]

/-- Any string begins with itself before any suffix. -/
theorem beginsWith_append_self (p t : String) : beginsWith (p ++ t) p = true := by
  unfold beginsWith
  rw [String.data_append]
  exact List.isPrefixOf_iff_prefix.mpr (List.prefix_append _ _)

/-- A key that starts with the positive wake word cannot begin with the
negative marker. -/
theorem not_beginsWith_hey_nexus (t : String) :
    beginsWith ("hey_nexus" ++ t) "negative-" = false := by
  unfold beginsWith
  rw [String.data_append]
  have h9 : "hey_nexus".data = 'h' :: "ey_nexus".data := rfl
  have hng : "negative-".data = 'n' :: "egative-".data := rfl
  rw [h9, hng, List.cons_append]
  simp [List.isPrefixOf]

/-- A join of a nonempty list extends its head. -/
theorem jsJoin_cons_data (sep a : String) (l : List String) :
    ∃ s : String, jsJoin sep (a :: l) = a ++ s := by
  cases l with
  | nil =>
    refine ⟨"", ?_⟩
    show a = a ++ ""
    rw [String.append_empty]
  | cons b bs =>
    refine ⟨sep ++ jsJoin sep (b :: bs), ?_⟩
    show a ++ sep ++ jsJoin sep (b :: bs) = _
    rw [String.append_assoc]

/-- The language-accent segment contributes the same filtered part in
the source's form and in the claim's form. -/
theorem filter_s3_eq (req : Request) :
    List.filter (fun p => p != "")
      (match languageAccentOf req with
       | some la => if la = "" then [] else [la]
       | none => [])
    = List.filter (fun p => p != "")
        (if truthy req.language && truthy req.accent
         then [req.language.getD "" ++ "_" ++ req.accent.getD ""] else []) := by
  unfold languageAccentOf
  by_cases hc : (truthy req.language && truthy req.accent) = true
  · rw [if_pos hc, if_pos hc]
    by_cases h0 : (req.language.getD "" ++ "_" ++ req.accent.getD "") = ""
    · simp [h0]
    · simp [h0]
  · rw [if_neg hc, if_neg hc]

/-- The code's extension (`contentType.replace("audio/", "")`) equals
the claim's subtype for every allowed content type. -/
theorem keyExtension_eq_subtype (req : Request)
    (h1 : truthy (parsedContentType req) = true)
    (h2 : (parsedContentType req).getD "" ∈ WAKE_WORD_ALLOWED_CONTENT_TYPES) :
    keyExtension req = contentSubtype ((parsedContentType req).getD "") := by
  cases hp : parsedContentType req with
  | none =>
    rw [hp] at h1
    exact absurd h1 (by decide)
  | some ct =>
    rw [hp] at h2
    unfold keyExtension
    rw [hp]
    simp only [Option.getD_some] at h2 ⊢
    simp only [WAKE_WORD_ALLOWED_CONTENT_TYPES, List.mem_cons,
      List.mem_singleton, List.not_mem_nil, or_false] at h2
    rcases h2 with h | h | h | h <;> subst h <;> decide

/-- C3: for every upload request that passes all validation checks, the
computed storage key equals the hyphen-joined concatenation, in this
fixed order, of the non-empty, non-absent parts [negative marker (only
when wake_word is in the negative list), wake_word,
`{language}_{accent}` (only when both are given), age (only when
non-empty), gender, identifier], followed by `.` and the content-type's
subtype — and on a successful put the 201 response and the recorded put
carry exactly this key. -/
theorem upload_key_structure (d : Demographics) (req : Request) (bucket : Bucket)
    (t : Nat) (r : String) (h : uploadValidation d req = none) :
    uploadKey req t r = claimedKey req t r
    ∧ (bucket.putResult (uploadKey req t r) = .ok () →
        handleUploadAudioFile d req bucket t r
          = .ok (createResponse (.obj [("message", .str "success"),
              ("key", .str (claimedKey req t r))]) (some 201),
              [.put (claimedKey req t r)])) := by
  obtain ⟨hm, hct1, hct2, hcl, hww, hwwm, hage, hgen, hlacc, hlf⟩ :=
    uploadValidation_none_facts d req h
  have hkey : uploadKey req t r = claimedKey req t r := by
    unfold uploadKey claimedKey
    rw [uploadFilenameParts_eq, keyExtension_eq_subtype req hct1 hct2]
    have h3 := filter_s3_eq req
    unfold isNegative
    simp only [List.filter_append, h3]
  refine ⟨hkey, fun hput => ?_⟩
  rw [handleUpload_of_validation_none d req bucket t r h, hput, hkey]

/-- Witness for C3: a valid negative-sample upload with language,
accent and age set; the key carries every part in order. -/
theorem upload_key_structure_witness :
    uploadValidation specDemographics
      negUploadReqW = none
    ∧ uploadKey
        negUploadReqW 7 "frag"
      = claimedKey
          negUploadReqW 7 "frag"
    ∧ uploadKey
        negUploadReqW 7 "frag"
      = "negative-texas-en_us-child-do_not_wish_to_say-ray-1.webm" :=
  ⟨by decide,
   (upload_key_structure specDemographics
     negUploadReqW
     emptyBucket 7 "frag" (by decide)).1,
   by decide⟩

/-- C4: for every upload request that passes all validation checks, the
computed storage key begins with `negative-` if and only if the
wake_word is a member of the negative allow-list; in particular for the
positive allow-list the key never begins with `negative-`. -/
theorem upload_key_negative_prefix_iff (d : Demographics) (req : Request)
    (t : Nat) (r : String) (h : uploadValidation d req = none) :
    beginsWith (uploadKey req t r) "negative-"
      = NEGATIVE_WAKE_WORD_ALLOWED_NAMES.contains (req.wake_word.getD "")
    ∧ (req.wake_word.getD "" ∈ WAKE_WORD_ALLOWED_NAMES →
        beginsWith (uploadKey req t r) "negative-" = false) := by
  obtain ⟨hm, hct1, hct2, hcl, hww, hwwm, hage, hgen, hlacc, hlf⟩ :=
    uploadValidation_none_facts d req h
  have hwne : (req.wake_word.getD "" != "") = true := by
    cases hw : req.wake_word with
    | none =>
      rw [hw] at hww
      exact absurd hww (by decide)
    | some s =>
      rw [hw] at hww
      simpa [truthy] using hww
  by_cases hneg : NEGATIVE_WAKE_WORD_ALLOWED_NAMES.contains (req.wake_word.getD "") = true
  · have hparts : uploadFilenameParts req t r
        = "negative" :: req.wake_word.getD ""
            :: List.filter (fun p => p != "")
              ((match languageAccentOf req with
                | some la => if la = "" then [] else [la]
                | none => [])
               ++ (if ageOf req = "" then [] else [ageOf req])
               ++ [genderOf req]
               ++ [identifierOf req t r]) := by
      rw [uploadFilenameParts_eq]
      unfold isNegative
      rw [if_pos hneg]
      simp [List.filter_cons, hwne]
    have hkeyform : uploadKey req t r
        = "negative-"
          ++ (jsJoin "-" (req.wake_word.getD ""
                :: List.filter (fun p => p != "")
                  ((match languageAccentOf req with
                    | some la => if la = "" then [] else [la]
                    | none => [])
                   ++ (if ageOf req = "" then [] else [ageOf req])
                   ++ [genderOf req]
                   ++ [identifierOf req t r]))
              ++ ("." ++ keyExtension req)) := by
      unfold uploadKey
      rw [hparts]
      show "negative" ++ "-" ++ jsJoin "-" _ ++ "." ++ keyExtension req = _
      rw [show ("negative" ++ "-" : String) = "negative-" from rfl,
        String.append_assoc, String.append_assoc]
    rw [hkeyform, beginsWith_append_self, hneg]
    refine ⟨rfl, fun hpos => ?_⟩
    have hwx : req.wake_word.getD "" = "hey_nexus" := by
      simpa [WAKE_WORD_ALLOWED_NAMES] using hpos
    rw [hwx] at hneg
    exact absurd hneg (by decide)
  · have hnegf : NEGATIVE_WAKE_WORD_ALLOWED_NAMES.contains (req.wake_word.getD "")
        = false := by
      simpa using hneg
    have hwx : req.wake_word.getD "" = "hey_nexus" := by
      rcases List.mem_append.mp hwwm with hA | hB
      · simpa [WAKE_WORD_ALLOWED_NAMES] using hA
      · have : NEGATIVE_WAKE_WORD_ALLOWED_NAMES.contains (req.wake_word.getD "")
            = true := by simpa using hB
        rw [hnegf] at this
        exact absurd this (by decide)
    have hparts : uploadFilenameParts req t r
        = "hey_nexus"
            :: List.filter (fun p => p != "")
              ((match languageAccentOf req with
                | some la => if la = "" then [] else [la]
                | none => [])
               ++ (if ageOf req = "" then [] else [ageOf req])
               ++ [genderOf req]
               ++ [identifierOf req t r]) := by
      rw [uploadFilenameParts_eq]
      unfold isNegative
      rw [hwx, if_neg (by decide)]
      simp [List.filter_cons]
    obtain ⟨s, hj⟩ := jsJoin_cons_data "-" "hey_nexus"
      (List.filter (fun p => p != "")
        ((match languageAccentOf req with
          | some la => if la = "" then [] else [la]
          | none => [])
         ++ (if ageOf req = "" then [] else [ageOf req])
         ++ [genderOf req]
         ++ [identifierOf req t r]))
    have hkeyform : uploadKey req t r
        = "hey_nexus" ++ (s ++ ("." ++ keyExtension req)) := by
      unfold uploadKey
      rw [hparts, hj, String.append_assoc, String.append_assoc]
    rw [hkeyform, not_beginsWith_hey_nexus, hnegf]
    exact ⟨rfl, fun _ => rfl⟩

/-- Witness for C4: the negative wake word `texas` yields a
`negative-`-prefixed key; the positive `hey_nexus` does not. -/
theorem upload_key_negative_prefix_iff_witness :
    uploadValidation specDemographics uploadReqW = none
    ∧ beginsWith (uploadKey uploadReqW 0 "r") "negative-" = false
    ∧ beginsWith
        (uploadKey { uploadReqW with wake_word := some "texas" } 0 "r") "negative-"
      = true :=
  ⟨by decide,
   (upload_key_negative_prefix_iff specDemographics uploadReqW 0 "r" (by decide)).2
     (by decide),
   by
    rw [(upload_key_negative_prefix_iff specDemographics
      { uploadReqW with wake_word := some "texas" } 0 "r" (by decide)).1]
    decide⟩

end Assist
